import Mathlib

/-!
Verification of the CVMatcher front-end (robbinzh/CVMatcher).

Shallow embedding of the client-side logic of the repository:

* `apps/frontend/app/dashboard/page.tsx` (`DashboardPage`): score
  percentages, improvement delta, improvement-suggestion quick preview;
* `apps/frontend/components/dashboard/vector-analysis.tsx`
  (`VectorAnalysis`): the overall-coverage statistic;
* `apps/frontend/components/jd-upload/text-area.tsx`
  (`JobDescriptionUploadTextArea`): the job-description form, modelled as a
  state machine whose events are the React handlers and the resolutions of
  the outstanding HTTP promises;
* the resume `FileUpload` component and its `onUploadSuccess` /
  `onUploadError` callbacks;
* `resume_previewer_context.tsx` (`useResumePreview`).

JavaScript numbers are modelled as `ℚ` (the scores and counts involved are
exact decimals well inside double precision); `Math.round` and
`Number.prototype.toFixed(0)` both round half toward positive infinity,
modelled by `jsRound`.  A JavaScript division whose divisor is `0` produces
a non-finite number (`NaN` or `±Infinity`); we model non-finite results as
`none`.
-/

namespace CVMatcher

/-- Model of `Math.round x` and `x.toFixed(0)` for a finite number: the nearest
integer, ties toward `+∞`, i.e. `⌊x + 1/2⌋`. -/
def jsRound (q : ℚ) : ℤ := ⌊q + 1/2⌋

/-- JavaScript division `a / b` as rendered on the page: `none` models the
non-finite results (`NaN` when `0/0`, `±Infinity` otherwise) produced when
the divisor is `0`. -/
def jsDiv (a b : ℚ) : Option ℚ := if b = 0 then none else some (a / b)

/-- JavaScript string falsiness for a nullable string: `null` and the empty
string are falsy (`!s` is true). -/
def isFalsyStr : Option String → Bool
  | none => true
  | some s => s = ""

/-- Model of `Array.prototype.slice(s, e)` for non-negative indices. -/
def jsSlice (l : List α) (s e : ℕ) : List α := (l.drop s).take (e - s)

/-- Model of `String.prototype.trim()`: strip whitespace from both ends of the
string. -/
def jsTrim (s : String) : String :=
  String.mk
    ((s.data.dropWhile Char.isWhitespace).reverse.dropWhile
      Char.isWhitespace).reverse

/-! ## Data model (`resume_previewer_context.tsx`) -/

/-- One entry of `Data.improvements`. -/
structure Improvement where
  suggestion : String
  lineNumber : Option String
deriving Repr, DecidableEq

/-- The `coverage_statistics` record of the `vector_analysis` block
(`CoverageStats` in `vector-analysis.tsx`). -/
structure CoverageStats where
  high_coverage : ℚ
  medium_coverage : ℚ
  low_coverage : ℚ
  total_skills_required : ℚ
  well_matched_skills : ℚ
  gaps_count : ℚ
deriving Repr, DecidableEq

/-- The slice of the backend `Data` payload the dashboard computations
read.  The two scores are optional: the page guards them with `?? 0` and
separately warns when they are `undefined`. -/
structure Data where
  original_score : Option ℚ
  new_score : Option ℚ
  improvements : List Improvement
  coverage_statistics : Option CoverageStats
deriving Repr, DecidableEq

/-! ## Dashboard page (`app/dashboard/page.tsx`) -/

/-- Embeds `const originalPct = Math.round((originalScore ?? 0) * 100)`. -/
def originalPct (d : Data) : ℤ := jsRound ((d.original_score.getD 0) * 100)

/-- Embeds `const newPct = Math.round((newScore ?? 0) * 100)`. -/
def newPct (d : Data) : ℤ := jsRound ((d.new_score.getD 0) * 100)

/-- Embeds `const improvementPct = newPct - originalPct`. -/
def improvementPct (d : Data) : ℤ := newPct d - originalPct d

/-- The list `improvedData.data.improvements.slice(0, 3)` — the entries shown in
the quick-preview block. -/
def previewImprovements (d : Data) : List Improvement :=
  jsSlice d.improvements 0 3

/-- The `还有 … 条建议` counter: rendered only when
`improvements.length > 3`, showing `improvements.length - 3`. -/
def remainingCount (d : Data) : Option ℕ :=
  if d.improvements.length > 3 then some (d.improvements.length - 3) else none

/-! ## Vector analysis (`components/dashboard/vector-analysis.tsx`) -/

/-- The overall-coverage figure of the statistics grid:
`((well_matched_skills / total_skills_required) * 100).toFixed(0)`.
`none` models a non-finite value (the division is unguarded). -/
def overallCoverage (s : CoverageStats) : Option ℤ :=
  (jsDiv s.well_matched_skills s.total_skills_required).map
    (fun q => jsRound (q * 100))

/-! ## JSON values and `encodeURIComponent` -/

/-- A parsed JSON value, as handed to the upload-success callback. -/
inductive Json where
  | str (s : String)
  | num (q : ℚ)
  | bool (b : Bool)
  | null
  | arr (elems : List Json)
  | obj (fields : List (String × Json))

/-- Property access `data.k` on a response object: `none` models
`undefined`. -/
def Json.getField : Json → String → Option Json
  | .obj fields, k => fields.lookup k
  | _, _ => none

/-- One hexadecimal digit, uppercase (as `encodeURIComponent` emits). -/
def hexDigit (n : ℕ) : Char :=
  if n < 10 then Char.ofNat (48 + n) else Char.ofNat (55 + n)

/-- The UTF-8 bytes of a character, as percent-encoding operates on. -/
def utf8Bytes (c : Char) : List ℕ :=
  let n := c.toNat
  if n < 0x80 then [n]
  else if n < 0x800 then [0xC0 + n / 64, 0x80 + n % 64]
  else if n < 0x10000 then [0xE0 + n / 4096, 0x80 + n / 64 % 64, 0x80 + n % 64]
  else [0xF0 + n / 262144, 0x80 + n / 4096 % 64, 0x80 + n / 64 % 64, 0x80 + n % 64]

/-- The characters `encodeURIComponent` leaves unescaped:
`A–Z a–z 0–9 - _ . ! ~ * ' ( )`. -/
def uriUnreserved (c : Char) : Bool :=
  c.isAlpha || c.isDigit ||
    ['-', '_', '.', '!', '~', '*', Char.ofNat 39, '(', ')'].contains c

/-- The `%XX` escape of one byte. -/
def pctByte (b : ℕ) : List Char :=
  ['%', hexDigit (b / 16), hexDigit (b % 16)]

/-- JavaScript `encodeURIComponent`: unreserved characters pass through,
every other character is replaced by the `%XX` escapes of its UTF-8
bytes. -/
def encodeURIComponent (s : String) : String :=
  String.mk (s.data.map (fun c =>
    if uriUnreserved c then [c] else ((utf8Bytes c).map pctByte).flatten)).flatten

/-! ## Flash / feedback messages -/

/-- The union `'success' | 'error'`. -/
inductive FeedbackType where
  | success
  | error
deriving Repr, DecidableEq

/-- A `{ type, message }` flash or feedback record. -/
structure Feedback where
  type : FeedbackType
  message : String
deriving Repr, DecidableEq

/-! ## Resume upload component (`FileUpload`) -/

/-- The `acceptedFileTypes` constant of the `FileUpload` component. -/
def acceptedFileTypes : List String :=
  ["application/pdf",
   "application/vnd.openxmlformats-officedocument.wordprocessingml.document"]

/-- Embeds `const acceptString = acceptedFileTypes.join(',')`. -/
def acceptString : String := String.intercalate "," acceptedFileTypes

/-- Embeds `const maxSize = 2 * 1024 * 1024` (2MB). -/
def maxSize : ℕ := 2 * 1024 * 1024

/-- The data of a selected browser `File` the validation reads. -/
structure FileInfo where
  name : String
  size : ℕ
  mime : String
deriving Repr, DecidableEq

/-- An HTTP upload request the hook would issue for a valid file. -/
structure UploadRequest where
  url : String
  file : FileInfo
deriving Repr, DecidableEq

/-- Modelled from the spec: the `useFileUpload` hook
(`@/hooks/use-file-upload`) is absent from this repository slice; the spec
says the control "validates file type/size against static constants, and
performs a single HTTP request per file" and that "a file above the
size/type limit is rejected before upload".  The component hands the hook
`maxSize` and the comma-joined `acceptString`; the hook is modelled as
validating against the corresponding list of accepted MIME types: a file
passes validation iff its size does not exceed `maxSz` and its MIME type
occurs in `accept`. -/
def validateFile (accept : List String) (maxSz : ℕ) (f : FileInfo) : Bool :=
  decide (f.size ≤ maxSz) && accept.contains f.mime

/-- Modelled from the spec: processing a selected file — the upload HTTP
request is issued only when validation passes; a rejected file produces no
request. -/
def processFile (accept : List String) (maxSz : ℕ) (uploadUrl : String)
    (f : FileInfo) : Option UploadRequest :=
  if validateFile accept maxSz f then some ⟨uploadUrl, f⟩ else none

/-- The outcome of the `onUploadSuccess` callback. -/
structure UploadSuccessResult where
  feedback : Option Feedback
  clearedErrors : Bool
  nav : Option String
deriving Repr, DecidableEq

/-- The `onUploadSuccess` callback of `FileUpload`: compute
`resumeId = typeof data.resume_id === 'string' ? data.resume_id : undefined`,
then guard with `if (!resumeId)` — `undefined` and the empty string are
both falsy, so either sets the error feedback and returns; otherwise set a
success feedback, clear errors and navigate to
`/jobs?resume_id=${encodeURIComponent(resumeId)}`. -/
def onUploadSuccess (fileName : String) (response : Json) :
    UploadSuccessResult :=
  let resumeId : Option String :=
    match response.getField "resume_id" with
    | some (.str s) => some s
    | _ => none
  match resumeId with
  | none =>
      { feedback := some ⟨.error, "上传成功但未收到简历ID。"⟩
        clearedErrors := false
        nav := none }
  | some rid =>
      if rid = "" then
        { feedback := some ⟨.error, "上传成功但未收到简历ID。"⟩
          clearedErrors := false
          nav := none }
      else
        { feedback := some ⟨.success, fileName ++ " 上传成功！"⟩
          clearedErrors := true
          nav := some ("/jobs?resume_id=" ++ encodeURIComponent rid) }

/-- The `onUploadError` callback of `FileUpload`:
`setUploadFeedback({ type: 'error', message: errorMsg || '…' })`
(an empty message string is falsy in JavaScript). -/
def onUploadError (errorMsg : String) : Feedback :=
  ⟨.error, if errorMsg = "" then "上传过程中发生未知错误。" else errorMsg⟩

/-! ## Resume preview context (`resume_previewer_context.tsx`) -/

/-- The `ImprovedResult` payload stored in the context. -/
structure ImprovedResult where
  data : Data
deriving Repr, DecidableEq

/-- The context value `{ improvedData, setImprovedData }`.  The setter is
the React state setter for `improvedData`; its effect is the assignment of
this field, so the record is represented by the current `improvedData`. -/
structure ContextValue where
  improvedData : Option ImprovedResult
deriving Repr, DecidableEq

/-- The value `ResumePreviewProvider` supplies to its children. -/
def providerValue (d : Option ImprovedResult) : ContextValue := ⟨d⟩

/-- The `useResumePreview` hook: `useContext` yields `undefined` (`none`) outside a
provider, in which case the hook throws; otherwise it returns the context
value. -/
def useResumePreview (ctx : Option ContextValue) : Except String ContextValue :=
  match ctx with
  | none => .error "useResumePreview must be used within ResumePreviewProvider"
  | some v => .ok v

/-! ## Job-description form (`JobDescriptionUploadTextArea`)

The component is modelled as a state machine.  Events are the React
handlers (`handleChange`, `handleUpload`, `handleImprove`) and the
resolutions of the awaited HTTP promises (`uploadJobDescriptions`,
`improveResume`).  A handler runs synchronously up to its `await`; the
resolution of the promise is a separate event, so between the two the
request is outstanding.  `pendingSubmit` / `pendingImprove` count the
outstanding requests of each kind. -/

/-- Embeds `type SubmissionStatus = 'idle' | 'submitting' | 'success' | 'error'`. -/
inductive SubmissionStatus where
  | idle
  | submitting
  | success
  | error
deriving Repr, DecidableEq

/-- Embeds `type ImprovementStatus = 'idle' | 'improving' | 'error'`. -/
inductive ImprovementStatus where
  | idle
  | improving
  | error
deriving Repr, DecidableEq

/-- An outbound HTTP request of the form. -/
inductive ApiRequest where
  | submitJobs (descriptions : List String) (resumeId : String)
  | improve (resumeId : Option String) (jobId : String)
deriving Repr, DecidableEq

/-- The component state: the five `useState` cells, plus the number of
outstanding requests of each kind and whether `router.push('/dashboard')`
has fired. -/
structure JDState where
  text : String
  flash : Option Feedback
  submissionStatus : SubmissionStatus
  improvementStatus : ImprovementStatus
  jobId : Option String
  pendingSubmit : ℕ
  pendingImprove : ℕ
  navigated : Bool
deriving Repr, DecidableEq

/-- The initial state of a freshly mounted component. -/
def initJD : JDState :=
  { text := ""
    flash := none
    submissionStatus := .idle
    improvementStatus := .idle
    jobId := none
    pendingSubmit := 0
    pendingImprove := 0
    navigated := false }

/-- The `handleChange` handler: store the text, clear the flash, and reset a non-idle
submission status to `'idle'`. -/
def handleChange (s : JDState) (newText : String) : JDState :=
  { s with
    text := newText
    flash := none
    submissionStatus :=
      if s.submissionStatus ≠ .idle then .idle else s.submissionStatus }

/-- Embeds `isNextDisabled = text.trim() === '' || submissionStatus === 'submitting'`. -/
def isNextDisabled (s : JDState) : Bool :=
  (jsTrim s.text == "") || decide (s.submissionStatus = .submitting)

/-- The improve button is rendered only when
`submissionStatus === 'success' && jobId` (a `null` or empty `jobId` is
falsy). -/
def improveVisible (s : JDState) : Bool :=
  decide (s.submissionStatus = .success) && !(isFalsyStr s.jobId)

/-- The improve button's `disabled={improvementStatus === 'improving'}`. -/
def improveDisabled (s : JDState) : Bool :=
  decide (s.improvementStatus = .improving)

/-- The `handleUpload` handler up to its `await`: validate the trimmed text and the
`resume_id` query parameter (`if (!resumeId)` — `null` and the empty
string are falsy), then issue `uploadJobDescriptions([trimmed], resumeId)`.
Returns the new state and the request issued, if any. -/
def handleUpload (s : JDState) (resumeId : Option String) :
    JDState × Option ApiRequest :=
  let trimmed := jsTrim s.text
  if trimmed = "" then
    ({ s with flash := some ⟨.error, "工作描述不能为空。"⟩ }, none)
  else
    match resumeId with
    | none => ({ s with flash := some ⟨.error, "缺少简历ID。"⟩ }, none)
    | some rid =>
      if rid = "" then
        ({ s with flash := some ⟨.error, "缺少简历ID。"⟩ }, none)
      else
        ({ s with
            submissionStatus := .submitting
            pendingSubmit := s.pendingSubmit + 1 },
         some (.submitJobs [trimmed] rid))

/-- Resolution of `await uploadJobDescriptions(...)`: the success branch
stores the job id, sets the status to `'success'` and flashes a success
message; the `catch` branch sets the status to `'error'` and flashes the
error's message.  Neither branch issues a request. -/
def submitResolve (s : JDState) (result : Except String String) : JDState :=
  match result with
  | .ok id =>
      { s with
        jobId := some id
        submissionStatus := .success
        flash := some ⟨.success, "工作描述提交成功！"⟩
        pendingSubmit := s.pendingSubmit - 1 }
  | .error msg =>
      { s with
        submissionStatus := .error
        flash := some ⟨.error, msg⟩
        pendingSubmit := s.pendingSubmit - 1 }

/-- The `handleImprove` handler up to its `await`: `if (!jobId) return`, otherwise set
the status to `'improving'` and issue `improveResume(resumeId, jobId)`
(the `resumeId` is passed through as-is, `null` included). -/
def handleImprove (s : JDState) (resumeId : Option String) :
    JDState × Option ApiRequest :=
  match s.jobId with
  | none => (s, none)
  | some jid =>
      if jid = "" then (s, none)
      else
        ({ s with
            improvementStatus := .improving
            pendingImprove := s.pendingImprove + 1 },
         some (.improve resumeId jid))

/-- Resolution of `await improveResume(...)`: on success the component
stores the preview in the context and navigates to `/dashboard` (the
improvement status is left at `'improving'`); the `catch` branch sets the
status to `'error'` and flashes the error's message.  Neither branch
issues a request. -/
def improveResolve (s : JDState) (result : Except String ImprovedResult) :
    JDState :=
  match result with
  | .ok _ =>
      { s with
        navigated := true
        pendingImprove := s.pendingImprove - 1 }
  | .error msg =>
      { s with
        improvementStatus := .error
        flash := some ⟨.error, msg⟩
        pendingImprove := s.pendingImprove - 1 }

/-- One event of the mounted component.  `resumeId` is the page-lifetime
`useSearchParams().get('resume_id')` value.  A submission can start only
through the enabled submit button; an improvement only through the
rendered, enabled improve button.  Promise resolutions require an
outstanding request of their kind. -/
inductive JDStep (resumeId : Option String) : JDState → JDState → Prop where
  | change (s : JDState) (newText : String) (hnav : s.navigated = false) :
      JDStep resumeId s (handleChange s newText)
  | submit (s : JDState) (hnav : s.navigated = false)
      (hen : isNextDisabled s = false) :
      JDStep resumeId s (handleUpload s resumeId).1
  | submitOk (s : JDState) (id : String) (hnav : s.navigated = false)
      (hp : 1 ≤ s.pendingSubmit) :
      JDStep resumeId s (submitResolve s (.ok id))
  | submitErr (s : JDState) (msg : String) (hnav : s.navigated = false)
      (hp : 1 ≤ s.pendingSubmit) :
      JDStep resumeId s (submitResolve s (.error msg))
  | improve (s : JDState) (hnav : s.navigated = false)
      (hvis : improveVisible s = true) (hen : improveDisabled s = false) :
      JDStep resumeId s (handleImprove s resumeId).1
  | improveOk (s : JDState) (r : ImprovedResult) (hnav : s.navigated = false)
      (hp : 1 ≤ s.pendingImprove) :
      JDStep resumeId s (improveResolve s (.ok r))
  | improveErr (s : JDState) (msg : String) (hnav : s.navigated = false)
      (hp : 1 ≤ s.pendingImprove) :
      JDStep resumeId s (improveResolve s (.error msg))

/-- The states the mounted component can reach. -/
def JDReachable (resumeId : Option String) (s : JDState) : Prop :=
  Relation.ReflTransGen (JDStep resumeId) initJD s

/-- Invariant: at most one improvement request is outstanding, and an
outstanding one is witnessed by `improvementStatus = 'improving'`. -/
def JDImproveInv (s : JDState) : Prop :=
  s.pendingImprove ≤ 1 ∧ (1 ≤ s.pendingImprove → s.improvementStatus = .improving)

lemma handleUpload_improve_fields (s : JDState) (rid : Option String) :
    (handleUpload s rid).1.pendingImprove = s.pendingImprove ∧
    (handleUpload s rid).1.improvementStatus = s.improvementStatus := by
  by_cases ht : jsTrim s.text = ""
  · simp [handleUpload, ht]
  · rcases rid with _ | r
    · simp [handleUpload, ht]
    · by_cases hr : r = "" <;> simp [handleUpload, ht, hr]

lemma jdImproveInv_step {rid : Option String} {s t : JDState}
    (hst : JDStep rid s t) (hs : JDImproveInv s) : JDImproveInv t := by
  cases hst with
  | change newText hnav =>
    exact ⟨by simpa [handleChange] using hs.1, by simpa [handleChange] using hs.2⟩
  | submit hnav hen =>
    have h := handleUpload_improve_fields s rid
    exact ⟨h.1 ▸ hs.1, fun hp => h.2 ▸ hs.2 (h.1 ▸ hp)⟩
  | submitOk id hnav hp =>
    exact ⟨by simpa [submitResolve] using hs.1, by simpa [submitResolve] using hs.2⟩
  | submitErr msg hnav hp =>
    exact ⟨by simpa [submitResolve] using hs.1, by simpa [submitResolve] using hs.2⟩
  | improve hnav hvis hen =>
    have hni : s.improvementStatus ≠ .improving := by
      simpa [improveDisabled] using hen
    have hp0 : s.pendingImprove = 0 := by
      by_contra hne
      exact hni (hs.2 (Nat.one_le_iff_ne_zero.mpr hne))
    rcases hj : s.jobId with _ | jid
    · simpa [handleImprove, hj] using hs
    · by_cases hje : jid = ""
      · simpa [handleImprove, hj, hje] using hs
      · refine ⟨?_, fun _ => ?_⟩
        · simp [handleImprove, hj, hje, hp0]
        · simp [handleImprove, hj, hje]
  | improveOk r hnav hp =>
    have h1 := hs.1
    refine ⟨?_, fun hge => ?_⟩
    · simp only [improveResolve]
      omega
    · simp only [improveResolve] at hge ⊢
      exact absurd hge (by omega)
  | improveErr msg hnav hp =>
    have h1 := hs.1
    refine ⟨?_, fun hge => ?_⟩
    · simp only [improveResolve]
      omega
    · simp only [improveResolve] at hge ⊢
      exact absurd hge (by omega)

lemma jdImproveInv_reachable (rid : Option String) (s : JDState)
    (h : JDReachable rid s) : JDImproveInv s := by
  induction h with
  | refl => exact ⟨Nat.zero_le 1, fun hp => absurd hp (by simp [initJD])⟩
  | tail hab hbc ih => exact jdImproveInv_step hbc ih

/-! # Claims -/

/-- C1: for every analysis result rendered by the dashboard page with
backend-provided fractional scores, the displayed original and new match
percentages equal `Math.round(score * 100)` of `original_score` and
`new_score`, and the displayed improvement equals the difference of the
two rounded percentages. -/
theorem C1_dashboard_percentages (d : Data) (a b : ℚ)
    (ha : d.original_score = some a) (hb : d.new_score = some b) :
    originalPct d = jsRound (a * 100) ∧
    newPct d = jsRound (b * 100) ∧
    improvementPct d = jsRound (b * 100) - jsRound (a * 100) := by
  simp [originalPct, newPct, improvementPct, ha, hb]

/-- Witness for C1: the backend scores 0.7 and 0.82. -/
theorem C1_dashboard_percentages_witness :
    originalPct ⟨some (7/10), some (82/100), [], none⟩ = jsRound (7/10 * 100) ∧
    newPct ⟨some (7/10), some (82/100), [], none⟩ = jsRound (82/100 * 100) ∧
    improvementPct ⟨some (7/10), some (82/100), [], none⟩ =
      jsRound (82/100 * 100) - jsRound (7/10 * 100) :=
  C1_dashboard_percentages _ (7/10) (82/100) rfl rfl

/-- C2: for every state whose trimmed text is empty, submission is blocked
client-side: `handleUpload` sets the error flash `工作描述不能为空。` and
returns — its only state change is the flash and it issues no
`uploadJobDescriptions` request — and the submit button is disabled. -/
theorem C2_empty_jd_blocked (s : JDState) (resumeId : Option String)
    (h : jsTrim s.text = "") :
    (handleUpload s resumeId).2 = none ∧
    (handleUpload s resumeId).1 =
      { s with flash := some ⟨.error, "工作描述不能为空。"⟩ } ∧
    isNextDisabled s = true := by
  simp [handleUpload, isNextDisabled, h]

/-- Witness for C2: the freshly mounted component with its empty text. -/
theorem C2_empty_jd_blocked_witness :
    jsTrim initJD.text = "" ∧
    ((handleUpload initJD (some "r")).2 = none ∧
     (handleUpload initJD (some "r")).1 =
       { initJD with flash := some ⟨.error, "工作描述不能为空。"⟩ } ∧
     isNextDisabled initJD = true) :=
  ⟨rfl, C2_empty_jd_blocked initJD (some "r") rfl⟩

/-- C3: a resume-upload success response whose body has no string-valued
`resume_id` sets the error feedback `上传成功但未收到简历ID。` and does not
navigate; navigation to `/jobs` happens only when `resume_id` is a
string. -/
theorem C3_missing_resume_id (fileName : String) (response : Json) :
    ((∀ r : String, response.getField "resume_id" ≠ some (.str r)) →
      onUploadSuccess fileName response =
        ⟨some ⟨.error, "上传成功但未收到简历ID。"⟩, false, none⟩) ∧
    ((onUploadSuccess fileName response).nav.isSome →
      ∃ r : String, response.getField "resume_id" = some (.str r)) := by
  unfold onUploadSuccess
  cases hr : response.getField "resume_id" with
  | none => simp
  | some j =>
    cases j with
    | str r => exact ⟨fun h => absurd rfl (h r), fun _ => ⟨r, rfl⟩⟩
    | num q => simp
    | bool b => simp
    | null => simp
    | arr elems => simp
    | obj fields => simp

/-- Witness for C3: a response object carrying a numeric `resume_id`. -/
theorem C3_missing_resume_id_witness :
    onUploadSuccess "cv.pdf" (.obj [("resume_id", .num 5)]) =
      ⟨some ⟨.error, "上传成功但未收到简历ID。"⟩, false, none⟩ :=
  (C3_missing_resume_id "cv.pdf" (.obj [("resume_id", .num 5)])).1
    (fun r h => by simp [Json.getField] at h)

/-- C4: a selected file larger than `2*1024*1024` bytes, or whose MIME
type is neither `application/pdf` nor the DOCX type, is rejected before
any upload HTTP request is made. -/
theorem C4_invalid_file_rejected (f : FileInfo) (url : String)
    (h : maxSize < f.size ∨
      (f.mime ≠ "application/pdf" ∧
       f.mime ≠
         "application/vnd.openxmlformats-officedocument.wordprocessingml.document")) :
    processFile acceptedFileTypes maxSize url f = none := by
  unfold processFile validateFile acceptedFileTypes
  rcases h with h | ⟨h1, h2⟩
  · have : ¬ f.size ≤ maxSize := Nat.not_le.mpr h
    simp [this]
  · simp [List.contains, h1, h2]

/-- Witness for C4: a 2MB-plus-one-byte PDF. -/
theorem C4_invalid_file_rejected_witness :
    (maxSize < 2097153 ∨
      (("application/pdf" : String) ≠ "application/pdf" ∧
       ("application/pdf" : String) ≠
         "application/vnd.openxmlformats-officedocument.wordprocessingml.document")) ∧
    processFile acceptedFileTypes maxSize "u" ⟨"big.pdf", 2097153, "application/pdf"⟩ =
      none :=
  ⟨Or.inl (by decide),
   C4_invalid_file_rejected ⟨"big.pdf", 2097153, "application/pdf"⟩ "u"
     (Or.inl (by decide))⟩

/-- C5: a failed job-description submission or improve-resume call is
caught at the call site: the error's message becomes the error flash, the
corresponding status becomes `'error'`, the one outstanding request is
retired, and no new request of either kind appears (no retry,
reclassification or escalation). -/
theorem C5_failures_become_flash (s : JDState) (msg : String) :
    (submitResolve s (.error msg)).flash = some ⟨.error, msg⟩ ∧
    (submitResolve s (.error msg)).submissionStatus = .error ∧
    (submitResolve s (.error msg)).pendingSubmit = s.pendingSubmit - 1 ∧
    (submitResolve s (.error msg)).pendingImprove = s.pendingImprove ∧
    (improveResolve s (.error msg)).flash = some ⟨.error, msg⟩ ∧
    (improveResolve s (.error msg)).improvementStatus = .error ∧
    (improveResolve s (.error msg)).pendingImprove = s.pendingImprove - 1 ∧
    (improveResolve s (.error msg)).pendingSubmit = s.pendingSubmit := by
  simp [submitResolve, improveResolve]

/-- C7 counterexample: the claim as stated quantifies over every
backend-issued string `resume_id`, but for the string-typed yet falsy
`resume_id = ""` the callback takes the `if (!resumeId)` error branch: it
sets the error feedback and does not navigate, so the navigation target is
not `/jobs?resume_id=` followed by the id's URI-encoding. -/
theorem C7_empty_id_counterexample :
    (onUploadSuccess "cv.pdf" (.obj [("resume_id", .str "")])).nav = none ∧
    (onUploadSuccess "cv.pdf" (.obj [("resume_id", .str "")])).feedback =
      some ⟨.error, "上传成功但未收到简历ID。"⟩ ∧
    ¬ ((onUploadSuccess "cv.pdf" (.obj [("resume_id", .str "")])).nav =
        some ("/jobs?resume_id=" ++ encodeURIComponent "")) := by
  decide

/-- C7 amended: for every successful resume upload returning a non-empty
string `resume_id`, the client neither generates nor validates
identifiers beyond the string-type and falsiness checks: the navigation
target is exactly `/jobs?resume_id=` followed by the id's URI-encoding,
and the jobs page passes the id from its query string unchanged into the
`uploadJobDescriptions` and `improveResume` calls. -/
theorem C7_resume_id_echo (fileName r : String) (response : Json)
    (hresp : response.getField "resume_id" = some (.str r)) (hrne : r ≠ "")
    (s : JDState) (rid jid : String)
    (htext : jsTrim s.text ≠ "") (hrid : rid ≠ "")
    (hjob : s.jobId = some jid) (hjid : jid ≠ "") :
    (onUploadSuccess fileName response).nav =
      some ("/jobs?resume_id=" ++ encodeURIComponent r) ∧
    (handleUpload s (some rid)).2 = some (.submitJobs [jsTrim s.text] rid) ∧
    (handleImprove s (some rid)).2 = some (.improve (some rid) jid) := by
  refine ⟨?_, ?_, ?_⟩
  · unfold onUploadSuccess
    rw [hresp]
    simp [hrne]
  · simp [handleUpload, htext, hrid]
  · simp [handleImprove, hjob, hjid]

/-- Witness for C7: the backend id `abc`, a filled-in form and the job id
`j`. -/
theorem C7_resume_id_echo_witness :
    (onUploadSuccess "cv.pdf" (.obj [("resume_id", .str "abc")])).nav =
      some ("/jobs?resume_id=" ++ encodeURIComponent "abc") ∧
    (handleUpload { initJD with text := "x", jobId := some "j" } (some "rid")).2 =
      some (.submitJobs [jsTrim "x"] "rid") ∧
    (handleImprove { initJD with text := "x", jobId := some "j" } (some "rid")).2 =
      some (.improve (some "rid") "j") :=
  C7_resume_id_echo "cv.pdf" "abc" (.obj [("resume_id", .str "abc")]) rfl
    (by decide) { initJD with text := "x", jobId := some "j" } "rid" "j"
    (by decide) (by decide) rfl (by decide)

/-- C8: calling `useResumePreview` with no surrounding provider throws
the error `useResumePreview must be used within ResumePreviewProvider`;
under a provider it returns the provider's context value, which carries
the current `improvedData`. -/
theorem C8_useResumePreview_contract :
    useResumePreview none =
      .error "useResumePreview must be used within ResumePreviewProvider" ∧
    ∀ d : Option ImprovedResult,
      useResumePreview (some (providerValue d)) = .ok (providerValue d) ∧
      (providerValue d).improvedData = d :=
  ⟨rfl, fun _ => ⟨rfl, rfl⟩⟩

/-- C9: the overall-coverage figure equals
`well_matched_skills / total_skills_required * 100` rounded to zero
decimal places, and the division is unguarded: with
`total_skills_required = 0` the value is non-finite, so the percentage is
well defined only under the precondition `total_skills_required ≠ 0`. -/
theorem C9_overall_coverage (s : CoverageStats) :
    (s.total_skills_required ≠ 0 →
      overallCoverage s =
        some (jsRound (s.well_matched_skills / s.total_skills_required * 100))) ∧
    (s.total_skills_required = 0 → overallCoverage s = none) := by
  unfold overallCoverage jsDiv
  constructor
  · intro h
    simp [h]
  · intro h
    simp [h]

/-- Witness for C9: 3 of 4 skills matched, and a zero-skill payload. -/
theorem C9_overall_coverage_witness :
    overallCoverage ⟨0, 0, 0, 4, 3, 1⟩ = some (jsRound (3 / 4 * 100)) ∧
    overallCoverage ⟨0, 0, 0, 0, 3, 1⟩ = none :=
  ⟨(C9_overall_coverage ⟨0, 0, 0, 4, 3, 1⟩).1 (by norm_num),
   (C9_overall_coverage ⟨0, 0, 0, 0, 3, 1⟩).2 rfl⟩

/-- C10: the quick-preview block shows at most the first three improvement
entries, in their original order (`slice(0, 3)` is the three-element
initial segment), and exactly when more than three exist the counter shows
`length - 3`. -/
theorem C10_preview_improvements (d : Data) :
    previewImprovements d = d.improvements.take 3 ∧
    (previewImprovements d).length ≤ 3 ∧
    (3 < d.improvements.length →
      remainingCount d = some (d.improvements.length - 3)) ∧
    (d.improvements.length ≤ 3 → remainingCount d = none) := by
  refine ⟨rfl, ?_, ?_, ?_⟩
  · simp only [previewImprovements, jsSlice, List.drop_zero, List.length_take]
    omega
  · intro h
    unfold remainingCount
    rw [if_pos h]
  · intro h
    unfold remainingCount
    rw [if_neg (by omega)]

/-- C6 counterexample: the claim "in every reachable state no two HTTP
requests overlap" is false.  The state below is reachable (type `x`,
submit, submission succeeds with job id `j`, click improve, click submit
again — the submit button is enabled because `submissionStatus` is
`'success'`, not `'submitting'`, while the improvement request is still
in flight) and has one outstanding submission and one outstanding
improvement request at the same time. -/
theorem C6_overlap_counterexample :
    JDReachable (some "r")
      { text := "x"
        flash := some ⟨.success, "工作描述提交成功！"⟩
        submissionStatus := .submitting
        improvementStatus := .improving
        jobId := some "j"
        pendingSubmit := 1
        pendingImprove := 1
        navigated := false } ∧
    ¬ (JDState.pendingSubmit
        { text := "x"
          flash := some ⟨.success, "工作描述提交成功！"⟩
          submissionStatus := .submitting
          improvementStatus := .improving
          jobId := some "j"
          pendingSubmit := 1
          pendingImprove := 1
          navigated := false } +
       JDState.pendingImprove
        { text := "x"
          flash := some ⟨.success, "工作描述提交成功！"⟩
          submissionStatus := .submitting
          improvementStatus := .improving
          jobId := some "j"
          pendingSubmit := 1
          pendingImprove := 1
          navigated := false } ≤ 1) := by
  refine ⟨?_, by decide⟩
  have h1 : JDStep (some "r") initJD
      { text := "x", flash := none, submissionStatus := .idle,
        improvementStatus := .idle, jobId := none, pendingSubmit := 0,
        pendingImprove := 0, navigated := false } := by
    have e : handleChange initJD "x" =
        { text := "x", flash := none, submissionStatus := .idle,
          improvementStatus := .idle, jobId := none, pendingSubmit := 0,
          pendingImprove := 0, navigated := false } := by decide
    exact e ▸ @JDStep.change (some "r") initJD "x" rfl
  have h2 : JDStep (some "r")
      { text := "x", flash := none, submissionStatus := .idle,
        improvementStatus := .idle, jobId := none, pendingSubmit := 0,
        pendingImprove := 0, navigated := false }
      { text := "x", flash := none, submissionStatus := .submitting,
        improvementStatus := .idle, jobId := none, pendingSubmit := 1,
        pendingImprove := 0, navigated := false } := by
    have e : (handleUpload
        { text := "x", flash := none, submissionStatus := .idle,
          improvementStatus := .idle, jobId := none, pendingSubmit := 0,
          pendingImprove := 0, navigated := false } (some "r")).1 =
        { text := "x", flash := none, submissionStatus := .submitting,
          improvementStatus := .idle, jobId := none, pendingSubmit := 1,
          pendingImprove := 0, navigated := false } := by decide
    exact e ▸ @JDStep.submit (some "r") _ rfl (by decide)
  have h3 : JDStep (some "r")
      { text := "x", flash := none, submissionStatus := .submitting,
        improvementStatus := .idle, jobId := none, pendingSubmit := 1,
        pendingImprove := 0, navigated := false }
      { text := "x", flash := some ⟨.success, "工作描述提交成功！"⟩,
        submissionStatus := .success, improvementStatus := .idle,
        jobId := some "j", pendingSubmit := 0, pendingImprove := 0,
        navigated := false } := by
    have e : submitResolve
        { text := "x", flash := none, submissionStatus := .submitting,
          improvementStatus := .idle, jobId := none, pendingSubmit := 1,
          pendingImprove := 0, navigated := false } (.ok "j") =
        { text := "x", flash := some ⟨.success, "工作描述提交成功！"⟩,
          submissionStatus := .success, improvementStatus := .idle,
          jobId := some "j", pendingSubmit := 0, pendingImprove := 0,
          navigated := false } := by decide
    exact e ▸ @JDStep.submitOk (some "r") _ "j" rfl (by decide)
  have h4 : JDStep (some "r")
      { text := "x", flash := some ⟨.success, "工作描述提交成功！"⟩,
        submissionStatus := .success, improvementStatus := .idle,
        jobId := some "j", pendingSubmit := 0, pendingImprove := 0,
        navigated := false }
      { text := "x", flash := some ⟨.success, "工作描述提交成功！"⟩,
        submissionStatus := .success, improvementStatus := .improving,
        jobId := some "j", pendingSubmit := 0, pendingImprove := 1,
        navigated := false } := by
    have e : (handleImprove
        { text := "x", flash := some ⟨.success, "工作描述提交成功！"⟩,
          submissionStatus := .success, improvementStatus := .idle,
          jobId := some "j", pendingSubmit := 0, pendingImprove := 0,
          navigated := false } (some "r")).1 =
        { text := "x", flash := some ⟨.success, "工作描述提交成功！"⟩,
          submissionStatus := .success, improvementStatus := .improving,
          jobId := some "j", pendingSubmit := 0, pendingImprove := 1,
          navigated := false } := by decide
    exact e ▸ @JDStep.improve (some "r") _ rfl (by decide) (by decide)
  have h5 : JDStep (some "r")
      { text := "x", flash := some ⟨.success, "工作描述提交成功！"⟩,
        submissionStatus := .success, improvementStatus := .improving,
        jobId := some "j", pendingSubmit := 0, pendingImprove := 1,
        navigated := false }
      { text := "x", flash := some ⟨.success, "工作描述提交成功！"⟩,
        submissionStatus := .submitting, improvementStatus := .improving,
        jobId := some "j", pendingSubmit := 1, pendingImprove := 1,
        navigated := false } := by
    have e : (handleUpload
        { text := "x", flash := some ⟨.success, "工作描述提交成功！"⟩,
          submissionStatus := .success, improvementStatus := .improving,
          jobId := some "j", pendingSubmit := 0, pendingImprove := 1,
          navigated := false } (some "r")).1 =
        { text := "x", flash := some ⟨.success, "工作描述提交成功！"⟩,
          submissionStatus := .submitting, improvementStatus := .improving,
          jobId := some "j", pendingSubmit := 1, pendingImprove := 1,
          navigated := false } := by decide
    exact e ▸ @JDStep.submit (some "r") _ rfl (by decide)
  exact ((((Relation.ReflTransGen.refl.tail h1).tail h2).tail h3).tail h4).tail h5

/-- C6 amended: while `submissionStatus` is `'submitting'` the submit
button is disabled, and while `improvementStatus` is `'improving'` the
improve button is disabled, so no two improvement requests ever overlap
(at most one is outstanding in every reachable state).  Overlaps the
original claim rules out remain possible between a submission and an
improvement request, and — after the text-change handler resets
`submissionStatus` to `'idle'` — between two submissions. -/
theorem C6_buttons_disabled_and_improve_serial (resumeId : Option String)
    (s : JDState) (h : JDReachable resumeId s) :
    (s.submissionStatus = .submitting → isNextDisabled s = true) ∧
    (s.improvementStatus = .improving → improveDisabled s = true) ∧
    s.pendingImprove ≤ 1 := by
  refine ⟨fun hs => ?_, fun hi => ?_,
    (jdImproveInv_reachable resumeId s h).1⟩
  · simp [isNextDisabled, hs]
  · simp [improveDisabled, hi]

/-- Witness for the amended C6 at the initial state. -/
theorem C6_buttons_disabled_and_improve_serial_witness :
    (initJD.submissionStatus = .submitting → isNextDisabled initJD = true) ∧
    (initJD.improvementStatus = .improving → improveDisabled initJD = true) ∧
    initJD.pendingImprove ≤ 1 :=
  C6_buttons_disabled_and_improve_serial (some "r") initJD
    Relation.ReflTransGen.refl

/-- Witness for C10: four improvement suggestions. -/
theorem C10_preview_improvements_witness :
    previewImprovements
        ⟨none, none, [⟨"a", none⟩, ⟨"b", none⟩, ⟨"c", none⟩, ⟨"d", none⟩], none⟩ =
      [⟨"a", none⟩, ⟨"b", none⟩, ⟨"c", none⟩] ∧
    remainingCount
        ⟨none, none, [⟨"a", none⟩, ⟨"b", none⟩, ⟨"c", none⟩, ⟨"d", none⟩], none⟩ =
      some 1 :=
  ⟨(C10_preview_improvements
      ⟨none, none, [⟨"a", none⟩, ⟨"b", none⟩, ⟨"c", none⟩, ⟨"d", none⟩], none⟩).1,
   (C10_preview_improvements
      ⟨none, none, [⟨"a", none⟩, ⟨"b", none⟩, ⟨"c", none⟩, ⟨"d", none⟩], none⟩).2.2.1
     (by decide)⟩

end CVMatcher
